import Mathlib

/-!
Verification of the Sales Order controller
(`erpnext/selling/doctype/sales_order/sales_order.py`).

Shallow embedding: each relevant Python function is translated to a Lean
definition over explicit record types.  Monetary amounts and quantities
(Python floats) are modelled as exact rationals `ℚ`; calendar dates are
modelled as integers (ordinal day numbers); document statuses are the
literal strings the Python code writes.  `frappe.throw` is modelled as an
error value; where a function performs database writes before a possible
throw, the function returns the mutated state together with an optional
error so that partial mutation is observable.
-/

namespace SalesOrder

/-! ## Renewal overlap guard (`check_overlap`, `SalesOrder.before_submit`) -/

/-- The fields of a Sales Order read by `before_submit` / `check_overlap`.
`start_date` / `end_date` are `none` when the Python field is empty
(falsy); dates are ordinal day numbers. -/
structure RenewalFields where
  previous_order_id : Option String
  start_date : Option Int
  end_date : Option Int
deriving Repr, DecidableEq

/-- The predecessor order's date range, as fetched by
`frappe.get_doc("Sales Order", self.previous_order_id)`. -/
structure PrevOrderDates where
  start_date : Int
  end_date : Int
deriving Repr, DecidableEq

/-- `check_overlap(self)`: with both dates set, returns
`start_date <= previous_order.end_date and end_date >= previous_order.start_date`;
otherwise returns `False`. -/
def check_overlap (self : RenewalFields) (previous_order : PrevOrderDates) : Bool :=
  match self.start_date, self.end_date with
  | some start_date, some end_date =>
      decide (start_date ≤ previous_order.end_date ∧ end_date ≥ previous_order.start_date)
  | _, _ => false

/-- `SalesOrder.before_submit`: when `previous_order_id` is set and
`check_overlap` returns true, `frappe.throw` aborts the submission. -/
def before_submit (self : RenewalFields) (previous_order : PrevOrderDates) :
    Except String Unit :=
  if self.previous_order_id.isSome then
    if check_overlap self previous_order then
      .error "Current start and end dates overlap with the previous order."
    else .ok ()
  else .ok ()

/-! ## Payment / security-deposit status classification
(`validate_and_update_payment_status`,
`validate_and_update_payment_and_security_deposit_status`) -/

/-- `validate_and_update_payment_status`: computes
`balance_amount = rounded_total - advance_paid` and classifies
`payment_status` by the if/elif/else chain of the source
(`'Paid'` when `rounded_total == advance_paid`, `'UnPaid'` when
`advance_paid == 0`, `'Partially Paid'` otherwise).  Returns
(balance_amount, payment_status). -/
def validate_and_update_payment_status (rounded_total advance_paid : ℚ) :
    ℚ × String :=
  let balance_amount := rounded_total - advance_paid
  let payment_status :=
    if rounded_total = advance_paid then "Paid"
    else if advance_paid = 0 then "UnPaid"
    else "Partially Paid"
  (balance_amount, payment_status)

/-- The security-deposit half of
`validate_and_update_payment_and_security_deposit_status`:
`outstanding = security_deposit - total_debit_amount`; status is `'Paid'`
when the outstanding amount is `0`, `'Unpaid'` when it equals the whole
`security_deposit`, `'Partially Paid'` otherwise.  Returns
(outstanding amount, security_deposit_status). -/
def security_deposit_classification (security_deposit total_debit_amount : ℚ) :
    ℚ × String :=
  let outstanding := security_deposit - total_debit_amount
  let status :=
    if outstanding = 0 then "Paid"
    else if outstanding = security_deposit then "Unpaid"
    else "Partially Paid"
  (outstanding, status)

/-- `validate_and_update_payment_and_security_deposit_status`: performs the
payment-status classification on (`rounded_total`, `advance_paid`) and the
security-deposit classification on (`security_deposit`, summed
`total_debit` of the matching journal entries); returns
(payment_status, security_deposit_status). -/
def validate_and_update_payment_and_security_deposit_status
    (rounded_total advance_paid security_deposit total_debit_amount : ℚ) :
    String × String :=
  ((validate_and_update_payment_status rounded_total advance_paid).2,
   (security_deposit_classification security_deposit total_debit_amount).2)

/-! ## Sales Order line rows and derivation targets -/

/-- The fields of a `Sales Order Item` row read by the derivation
functions (`make_delivery_note`, `create_pick_list`,
`make_material_request`).  `delivered_by_supplier` is the Python int
flag compared against `1` in the source. -/
structure SOItemRow where
  name : String
  item_code : String
  qty : ℚ
  delivered_qty : ℚ
  rate : ℚ
  base_rate : ℚ
  delivered_by_supplier : Int
  stock_reserved_qty : ℚ
  picked_qty : ℚ
  conversion_factor : ℚ
deriving Repr, DecidableEq

/-- The quantity/amount fields of a `Delivery Note Item` produced by
`make_delivery_note`'s `update_item` postprocess. -/
structure DeliveryNoteItem where
  qty : ℚ
  amount : ℚ
  base_amount : ℚ
deriving Repr, DecidableEq

/-- `make_delivery_note`'s nested `condition`, in the default situation
where `sre_details` is empty (no reserved-stock selection) and no
`delivery_dates` / `until_delivery_date` filters are passed:
`abs(doc.delivered_qty) < abs(doc.qty) and doc.delivered_by_supplier != 1`. -/
def make_delivery_note.condition (doc : SOItemRow) : Bool :=
  decide (|doc.delivered_qty| < |doc.qty| ∧ doc.delivered_by_supplier ≠ 1)

/-- `make_delivery_note`'s nested `update_item`: the target quantity is the
undelivered remainder and both amounts are recomputed from it and the
source rates (the source `amount` field is not read). -/
def make_delivery_note.update_item (source : SOItemRow) : DeliveryNoteItem :=
  { qty := source.qty - source.delivered_qty
    amount := (source.qty - source.delivered_qty) * source.rate
    base_amount := (source.qty - source.delivered_qty) * source.base_rate }

/-- `make_delivery_note` restricted to its `Sales Order Item` → `Delivery
Note Item` mapping (default kwargs: item mapping not skipped, no
reserved-stock selection): `get_mapped_doc` keeps the rows passing
`condition` and post-processes each with `update_item`. -/
def make_delivery_note (items : List SOItemRow) : List DeliveryNoteItem :=
  (items.filter make_delivery_note.condition).map make_delivery_note.update_item

/-- The quantity fields of a `Pick List Item` produced by
`create_pick_list`'s `update_item_quantity` postprocess. -/
structure PickListItem where
  qty : ℚ
  stock_qty : ℚ
deriving Repr, DecidableEq

/-- `create_pick_list`'s nested `update_item_quantity`:
`picked_qty = source.picked_qty / (source.conversion_factor or 1)` (Python
`or` substitutes `1` for a zero conversion factor) and
`qty_to_be_picked = source.qty - max(picked_qty, source.delivered_qty)`. -/
def create_pick_list.update_item_quantity (source : SOItemRow) : PickListItem :=
  let picked_qty := source.picked_qty /
    (if source.conversion_factor = 0 then 1 else source.conversion_factor)
  let qty_to_be_picked := source.qty - max picked_qty source.delivered_qty
  { qty := qty_to_be_picked
    stock_qty := qty_to_be_picked * source.conversion_factor }

/-- `create_pick_list`'s nested `should_pick_order_item`.  The
`product_bundle` argument models the `is_product_bundle(item.item_code)`
database lookup (true iff the item code names an enabled Product Bundle
parent). -/
def create_pick_list.should_pick_order_item (product_bundle : String → Bool)
    (item : SOItemRow) : Bool :=
  decide (|item.delivered_qty| < |item.qty| ∧ item.delivered_by_supplier ≠ 1) &&
    !(product_bundle item.item_code)

/-- `create_pick_list` restricted to its `Sales Order Item` → `Pick List
Item` mapping: `validate_sales_order` throws as soon as some row has
`stock_reserved_qty > 0` (before `get_mapped_doc` runs); otherwise the
rows passing `should_pick_order_item` are mapped through
`update_item_quantity`.  (The `Packed Item` fan-out rows, which carry no
condition, are outside this model.) -/
def create_pick_list (product_bundle : String → Bool) (items : List SOItemRow) :
    Except String (List PickListItem) :=
  if items.any (fun item => item.stock_reserved_qty > 0) then
    .error "Cannot create a pick list for Sales Order because it has reserved stock. Please unreserve the stock in order to create a pick list."
  else
    .ok ((items.filter (create_pick_list.should_pick_order_item product_bundle)).map
      create_pick_list.update_item_quantity)

/-- `make_material_request`'s nested `get_remaining_qty`:
`so_item.qty - requested_qty - max(so_item.delivered_qty - received_qty, 0)`,
where `requested_qty` / `received_qty` are the summed quantities of
submitted Material Request Items against this row (`0` when absent). -/
def get_remaining_qty (so_item : SOItemRow) (requested_qty received_qty : ℚ) : ℚ :=
  so_item.qty - requested_qty - max (so_item.delivered_qty - received_qty) 0

/-! ## Rental lifecycle: line sub-statuses, header vote, item statuses

The `Item` doctype table is modelled as a total map from item code to the
item's `status` string; `frappe.get_doc('Item', code)` followed by
`item_doc.status = s; item_doc.save()` is a pointwise update. -/

/-- `item_doc.status = status; item_doc.save()` on the Item table. -/
def set_item_status (item_status : String → String) (code status : String) :
    String → String :=
  fun c => if c = code then status else item_status c

/-- The fields of a `Sales Order Item` row read/written by the rental
status RPCs. -/
structure RentalLine where
  name : String
  item_code : String
  child_status : String
  old_item_code : String
deriving Repr, DecidableEq

/-- The header re-vote at the end of `item_replacement` (lines 3014-3029):
executed only when some line is outside "Ready for Delivery"/"DISPATCHED";
then `all_active` → "Active", else `any_submitted` → "Partially Closed",
else `not_submitted` → "Active"; otherwise the header keeps its current
value. -/
def replacement_vote (statuses : List String) (current_status : String) : String :=
  if statuses.any (fun c => decide (c ≠ "Ready for Delivery" ∧ c ≠ "DISPATCHED")) then
    if statuses.all (fun c => decide (c = "Active")) then "Active"
    else if statuses.any (fun c => decide (c = "Submitted to Office")) then "Partially Closed"
    else if statuses.any (fun c => decide (c ≠ "Submitted to Office")) then "Active"
    else current_status
  else current_status

/-- The per-line update of `item_replacement` applied to every row whose
`item_code` matches the replaced item: a "Picked Up" row becomes "Active",
any other row keeps its `child_status`; both get the new item code and
remember the old one. -/
def item_replacement.replace_line (item_code new_item : String) (l : RentalLine) :
    RentalLine :=
  if l.item_code = item_code then
    if l.child_status = "Picked Up" then
      { l with child_status := "Active", item_code := new_item,
               old_item_code := item_code }
    else { l with item_code := new_item, old_item_code := item_code }
  else l

/-- `item_replacement(item_code, new_item, …)`: updates the matching rows
(per `replace_line`), sets the new item's status to "Rented Out" for a
"Picked Up" row and "Reserved" otherwise, restores the old item's status
to the caller-supplied `old_item_status`, and finally re-votes the header
status over ALL rows of the order.  Returns
(item table, rows, header status). -/
def item_replacement (item_status : String → String) (lines : List RentalLine)
    (item_code new_item old_item_status current_status : String) :
    (String → String) × List RentalLine × String :=
  let matched := lines.filter (fun l => l.item_code == item_code)
  let item_status1 := matched.foldl (fun m l =>
    set_item_status m new_item
      (if l.child_status = "Picked Up" then "Rented Out" else "Reserved")) item_status
  let item_status2 := set_item_status item_status1 item_code old_item_status
  let lines1 := lines.map (item_replacement.replace_line item_code new_item)
  (item_status2, lines1, replacement_vote (lines1.map RentalLine.child_status) current_status)

/-- The header re-vote at the end of `update_status_to_pickup`'s
multiple-row branch (lines 2696-2707): "Active" when no row's
`child_status` is "Submitted to Office", else "Partially Closed". -/
def pickup_vote (statuses : List String) : String :=
  if statuses.all (fun c => decide (c ≠ "Submitted to Office")) then "Active"
  else "Partially Closed"

/-- `update_status_to_pickup(item_code, docname, child_name)`: the item is
set to "Rented Out"; with exactly one row, both that row and the header
become "Picked Up"; with several rows, only the `child_name` row becomes
"Picked Up" and the header is re-voted with `pickup_vote`; with no rows
nothing changes and `False` is returned.  Returns
(item table, rows, header status, returned bool). -/
def update_status_to_pickup (item_status : String → String) (item_code : String)
    (lines : List RentalLine) (child_name current_status : String) :
    (String → String) × List RentalLine × String × Bool :=
  let item_status1 := set_item_status item_status item_code "Rented Out"
  match lines with
  | [] => (item_status1, lines, current_status, false)
  | [l] => (item_status1, [{ l with child_status := "Picked Up" }], "Picked Up", true)
  | _ :: _ :: _ =>
    let lines1 := lines.map (fun l =>
      if l.name = child_name then { l with child_status := "Picked Up" } else l)
    (item_status1, lines1, pickup_vote (lines1.map RentalLine.child_status), true)

/-- Modelled from the claim's wording (refinement reference, NOT from the
source): the claimed multi-line header vote — "Active" only when all lines
not in "Ready for Delivery"/"DISPATCHED" are "Active", otherwise
"Partially Closed" when at least one line is "Submitted to Office",
otherwise "Active". -/
def claimed_status_vote (statuses : List String) : String :=
  if (statuses.filter (fun c =>
      decide (c ≠ "Ready for Delivery" ∧ c ≠ "DISPATCHED"))).all
      (fun c => decide (c = "Active")) then "Active"
  else if statuses.any (fun c => decide (c = "Submitted to Office")) then
    "Partially Closed"
  else "Active"

/-! ## Cancellation (`SalesOrder.on_cancel`, `item_status_change_cancel`) -/

/-- `item_status_change_cancel`: for each line's item, a "Rented Out"
status is flipped to "Available" and saved (followed by an explicit
`frappe.db.commit()`, so these writes survive the later throw). -/
def item_status_change_cancel (lines : List String)
    (item_status : String → String) : String → String :=
  lines.foldl (fun m item_code =>
    if m item_code = "Rented Out" then set_item_status m item_code "Available"
    else m) item_status

/-- `SalesOrder.on_cancel` on the fields this claim set observes: first
`item_status_change_cancel` runs (and commits), then a "Closed" order
raises the closed-order error (aborting before the status write), and
otherwise `db_set("status", "Cancelled")` runs.  `lines` is the list of
the order's line item codes.  Returns ((item table, header status),
optional raised error). -/
def on_cancel (lines : List String) (item_status : String → String)
    (status : String) : ((String → String) × String) × Option String :=
  let item_status1 := item_status_change_cancel lines item_status
  if status = "Closed" then
    ((item_status1, status), some "Closed order cannot be cancelled. Unclose to cancel.")
  else ((item_status1, "Cancelled"), none)

/-! ## Rental payment processing (`process_payment`) -/

/-- The two kinds of ledger documents `process_payment` can create. -/
inductive PaymentEntryKind where
  | security_deposit_journal_entry
  | rental_payment_entry
deriving Repr, DecidableEq

/-- `process_payment`: validations (negative amounts, negative balances,
amount exceeding its outstanding balance) each `frappe.throw` before any
entry is created; on success the created entries are a journal entry for
the deposit and/or a payment entry for the rent.  Returns
(entries created, optional raised error). -/
def process_payment (balance_amount outstanding_security_deposit_amount
    rental_payment_amount security_deposit_payment_amount : ℚ) :
    List PaymentEntryKind × Option String :=
  if rental_payment_amount < 0 ∨ security_deposit_payment_amount < 0 then
    ([], some "Payment amounts cannot be negative.")
  else if balance_amount < 0 ∨ outstanding_security_deposit_amount < 0 then
    ([], some "Balance amounts cannot be negative.")
  else if security_deposit_payment_amount > 0 ∧ rental_payment_amount > 0 then
    if security_deposit_payment_amount > outstanding_security_deposit_amount then
      ([], some "Security Deposit Payment Amount cannot be greater than the Security Deposit Amount.")
    else if rental_payment_amount > balance_amount then
      ([], some "Rental Payment Amount cannot be greater than the Balance Amount.")
    else ([.security_deposit_journal_entry, .rental_payment_entry], none)
  else if security_deposit_payment_amount > 0 then
    if security_deposit_payment_amount > outstanding_security_deposit_amount then
      ([], some "Security Deposit Payment Amount cannot be greater than the Security Deposit Amount.")
    else ([.security_deposit_journal_entry], none)
  else if rental_payment_amount > 0 then
    if rental_payment_amount > balance_amount then
      ([], some "Rental Payment Amount cannot be greater than the Balance Amount.")
    else ([.rental_payment_entry], none)
  else ([], none)

/-! ## Approval (`make_approved`) -/

/-- The fields of a `Sales Order Item` row read by `make_approved`. -/
structure ApprovalLine where
  name : String
  item_code : String
deriving Repr, DecidableEq

/-- The order-scoped state `make_approved` mutates: the Item table, the
rows' `child_status` (keyed by row name) and the order's header status. -/
structure ApprovalDB where
  item_status : String → String
  child_status : String → String
  order_status : String

/-- The `for item in sales_order_items:` loop of `make_approved`: an
"Available" item becomes "Reserved", the row's `child_status` becomes
"Approved" and the order status becomes "Approved"; any other item status
breaks out of the loop, leaving all later rows unprocessed and already
made writes in place. -/
def make_approved_loop : List ApprovalLine → ApprovalDB → ApprovalDB
  | [], db => db
  | item :: rest, db =>
    if db.item_status item.item_code = "Available" then
      make_approved_loop rest
        { item_status := set_item_status db.item_status item.item_code "Reserved"
          child_status := fun n => if n = item.name then "Approved" else db.child_status n
          order_status := "Approved" }
    else db

/-- `make_approved(docname)`: runs the loop over the order's rows and
returns the string `"Approved Success"` (reached whether or not the loop
broke early). -/
def make_approved (so_lines : List ApprovalLine) (db : ApprovalDB) :
    ApprovalDB × String :=
  (make_approved_loop so_lines db, "Approved Success")

/-- One successful iteration of `make_approved`'s loop (the body taken when
the row's Item is "Available"): Item → "Reserved", row → "Approved",
order → "Approved". -/
def make_approved_step (db : ApprovalDB) (item : ApprovalLine) : ApprovalDB :=
  { item_status := set_item_status db.item_status item.item_code "Reserved"
    child_status := fun n => if n = item.name then "Approved" else db.child_status n
    order_status := "Approved" }

/-- The state after `make_approved`'s loop has processed exactly the rows
of `pre` (each found "Available" at its turn). -/
def make_approved_run (db : ApprovalDB) (pre : List ApprovalLine) : ApprovalDB :=
  pre.foldl make_approved_step db

/-- `available_in_turn db pre`: every row of `pre` finds its Item
"Available" at its own turn of the loop (i.e. after the earlier rows of
`pre` have been processed). -/
def available_in_turn (db : ApprovalDB) : List ApprovalLine → Bool
  | [] => true
  | item :: rest =>
    decide (db.item_status item.item_code = "Available") &&
      available_in_turn (make_approved_step db item) rest

end SalesOrder

namespace SalesOrder

/-! ### Helper lemmas -/

theorem item_status_change_cancel_cons (c : String) (rest : List String)
    (m : String → String) :
    item_status_change_cancel (c :: rest) m =
      item_status_change_cancel rest
        (if m c = "Rented Out" then set_item_status m c "Available" else m) := rfl

theorem item_status_change_cancel_keeps_available (lines : List String)
    (m : String → String) (code : String) (h : m code = "Available") :
    item_status_change_cancel lines m code = "Available" := by
  induction lines generalizing m with
  | nil => simpa [item_status_change_cancel] using h
  | cons c rest ih =>
    rw [item_status_change_cancel_cons]
    by_cases hc : m c = "Rented Out"
    · rw [if_pos hc]
      apply ih
      by_cases hcc : code = c <;> simp [set_item_status, hcc, h]
    · rw [if_neg hc]
      exact ih m h

theorem item_status_change_cancel_flips (lines : List String)
    (m : String → String) (code : String) (hmem : code ∈ lines)
    (h : m code = "Rented Out") :
    item_status_change_cancel lines m code = "Available" := by
  induction lines generalizing m with
  | nil => cases hmem
  | cons c rest ih =>
    rw [item_status_change_cancel_cons]
    by_cases hcc : code = c
    · subst hcc
      rw [if_pos h]
      apply item_status_change_cancel_keeps_available
      simp [set_item_status]
    · have hrest : code ∈ rest := by
        cases hmem with
        | head => exact absurd rfl hcc
        | tail _ h2 => exact h2
      by_cases hc : m c = "Rented Out"
      · rw [if_pos hc]
        apply ih _ hrest
        simp [set_item_status, hcc, h]
      · rw [if_neg hc]
        exact ih m hrest h

theorem item_status_change_cancel_not_mem (lines : List String)
    (m : String → String) (code : String) (hmem : code ∉ lines) :
    item_status_change_cancel lines m code = m code := by
  induction lines generalizing m with
  | nil => rfl
  | cons c rest ih =>
    have hcc : code ≠ c := fun hc => hmem (hc ▸ List.mem_cons_self c rest)
    have hrest : code ∉ rest := fun hr => hmem (List.mem_cons_of_mem c hr)
    rw [item_status_change_cancel_cons]
    by_cases hc : m c = "Rented Out"
    · rw [if_pos hc, ih _ hrest]
      simp [set_item_status, hcc]
    · rw [if_neg hc]
      exact ih m hrest

theorem bool_ne_true_of_eq_false {b : Bool} (h : b = false) : ¬(b = true) := by
  intro h2
  rw [h] at h2
  exact Bool.false_ne_true h2

theorem pickup_vote_eq_claimed (statuses : List String) :
    pickup_vote statuses = claimed_status_vote statuses := by
  unfold pickup_vote claimed_status_vote
  cases hsub : statuses.any (fun c => decide (c = "Submitted to Office")) with
  | true =>
    obtain ⟨e, he, hes⟩ := List.any_eq_true.mp hsub
    have hesub : e = "Submitted to Office" := by simpa using hes
    have hall : statuses.all (fun c => decide (c ≠ "Submitted to Office")) = false := by
      refine List.all_eq_false.mpr ⟨e, he, ?_⟩
      simp [hesub]
    have hfall : (statuses.filter (fun c =>
        decide (c ≠ "Ready for Delivery" ∧ c ≠ "DISPATCHED"))).all
        (fun c => decide (c = "Active")) = false := by
      refine List.all_eq_false.mpr ⟨e, ?_, ?_⟩
      · exact List.mem_filter.mpr ⟨he, by simp [hesub]⟩
      · simp [hesub]
    rw [hall, hfall]
    simp
  | false =>
    have hall : statuses.all (fun c => decide (c ≠ "Submitted to Office")) = true := by
      refine List.all_eq_true.mpr ?_
      intro e he
      have h2 : e ≠ "Submitted to Office" := by
        simpa using List.any_eq_false.mp hsub e he
      simpa using h2
    rw [hall]
    simp

theorem replacement_vote_eq_claimed (statuses : List String) (current_status : String)
    (hg : statuses.any
      (fun c => decide (c ≠ "Ready for Delivery" ∧ c ≠ "DISPATCHED")) = true) :
    replacement_vote statuses current_status = claimed_status_vote statuses := by
  unfold replacement_vote claimed_status_vote
  cases hsub : statuses.any (fun c => decide (c = "Submitted to Office")) with
  | true =>
    obtain ⟨e, he, hes⟩ := List.any_eq_true.mp hsub
    have hesub : e = "Submitted to Office" := by simpa using hes
    have haact : statuses.all (fun c => decide (c = "Active")) = false := by
      refine List.all_eq_false.mpr ⟨e, he, ?_⟩
      simp [hesub]
    have hfall : (statuses.filter (fun c =>
        decide (c ≠ "Ready for Delivery" ∧ c ≠ "DISPATCHED"))).all
        (fun c => decide (c = "Active")) = false := by
      refine List.all_eq_false.mpr ⟨e, ?_, ?_⟩
      · exact List.mem_filter.mpr ⟨he, by simp [hesub]⟩
      · simp [hesub]
    rw [hg, haact, hfall]
    simp
  | false =>
    obtain ⟨e, he, hee⟩ := List.any_eq_true.mp hg
    have hens : e ≠ "Submitted to Office" := by
      intro hc
      have h2 := List.any_eq_false.mp hsub e he
      simp [hc] at h2
    have hne : statuses.any (fun c => decide (c ≠ "Submitted to Office")) = true :=
      List.any_eq_true.mpr ⟨e, he, by simpa using hens⟩
    rw [hg, hne]
    simp

theorem replacement_vote_all_excluded (statuses : List String)
    (current_status : String)
    (hg : statuses.any
      (fun c => decide (c ≠ "Ready for Delivery" ∧ c ≠ "DISPATCHED")) = false) :
    replacement_vote statuses current_status = current_status := by
  unfold replacement_vote
  rw [hg]
  simp

end SalesOrder

namespace SalesOrder

/-- C1 counterexample: a renewal order whose `[start_date, end_date] = [5, 6]`
does not overlap the predecessor's `[1, 2]`, yet `before_submit` succeeds
(no date-overlap error), contradicting the claim that submission fails
whenever the intervals do not overlap. -/
theorem before_submit_no_overlap_succeeds :
    before_submit ⟨some "SO-0001", some 5, some 6⟩ ⟨1, 2⟩ = .ok () ∧
      ¬((5 : Int) ≤ 2 ∧ (6 : Int) ≥ 1) := by
  constructor
  · rfl
  · decide

/-- C1 (amended): for an order with `previous_order_id` and both dates set,
submission succeeds iff the interval does NOT overlap the predecessor's
interval (inclusively); when the intervals do overlap, `before_submit`
fails with the date-overlap error. -/
theorem before_submit_rejects_overlap (self : RenewalFields)
    (previous_order : PrevOrderDates) (pid : String) (s e : Int)
    (hp : self.previous_order_id = some pid)
    (hs : self.start_date = some s) (he : self.end_date = some e) :
    (before_submit self previous_order = .ok () ↔
        ¬(s ≤ previous_order.end_date ∧ e ≥ previous_order.start_date)) ∧
      ((s ≤ previous_order.end_date ∧ e ≥ previous_order.start_date) →
        before_submit self previous_order =
          .error "Current start and end dates overlap with the previous order.") := by
  have hov : check_overlap self previous_order =
      decide (s ≤ previous_order.end_date ∧ e ≥ previous_order.start_date) := by
    simp [check_overlap, hs, he]
  constructor
  · constructor
    · intro hok hcon
      simp [before_submit, hp, hov, hcon] at hok
    · intro hcon
      simp [before_submit, hp, hov, hcon]
  · intro hcon
    simp [before_submit, hp, hov, hcon]

/-- C1 witness: at the concrete overlapping instance
`[1, 10]` against predecessor `[5, 20]`, the amended theorem applies and
submission fails with the date-overlap error. -/
theorem before_submit_rejects_overlap_witness :
    before_submit ⟨some "SO-0002", some 1, some 10⟩ ⟨5, 20⟩ =
      .error "Current start and end dates overlap with the previous order." :=
  (before_submit_rejects_overlap ⟨some "SO-0002", some 1, some 10⟩ ⟨5, 20⟩
    "SO-0002" 1 10 rfl rfl rfl).2 (by decide)

/-- C3: the recomputation classifies both `payment_status` and
`security_deposit_status` three ways, first match winning: `Paid` when the
outstanding amount (total minus paid) is `0`, `Unpaid` (spelled `UnPaid`
for `payment_status`) when the paid amount is `0` and the outstanding is
not, and `Partially Paid` otherwise; in particular the classification
holds at the boundaries paid = total and paid = 0. -/
theorem payment_status_three_way_classification
    (total paid : ℚ) :
    (total - paid = 0 →
      validate_and_update_payment_and_security_deposit_status total paid total paid =
        ("Paid", "Paid")) ∧
    (total - paid ≠ 0 → paid = 0 →
      validate_and_update_payment_and_security_deposit_status total paid total paid =
        ("UnPaid", "Unpaid")) ∧
    (total - paid ≠ 0 → paid ≠ 0 →
      validate_and_update_payment_and_security_deposit_status total paid total paid =
        ("Partially Paid", "Partially Paid")) := by
  refine ⟨?_, ?_, ?_⟩
  · intro h
    have htp : total = paid := by linarith [sub_eq_zero.mp h]
    simp [validate_and_update_payment_and_security_deposit_status,
      validate_and_update_payment_status, security_deposit_classification, htp]
  · intro h hp
    have htp : ¬(total = paid) := fun hc => h (by simp [hc])
    have hout : ¬(total - paid = 0) := h
    have hfull : total - paid = total := by simp [hp]
    have ht0 : ¬(total = 0) := fun hc => htp (by rw [hc, hp])
    simp [validate_and_update_payment_and_security_deposit_status,
      validate_and_update_payment_status, security_deposit_classification,
      htp, hp, hfull, ht0]
  · intro h hp
    have htp : ¬(total = paid) := fun hc => h (by simp [hc])
    have hout : ¬(total - paid = 0) := h
    have hne : ¬(total - paid = total) := by
      intro hc
      exact hp (by linarith)
    simp [validate_and_update_payment_and_security_deposit_status,
      validate_and_update_payment_status, security_deposit_classification,
      htp, hout, hne, hp]

/-- C3 witness: the classification at the boundary paid = total
(1000 of 1000: both statuses `Paid`), at the boundary paid = 0
(0 of 1000: `UnPaid`/`Unpaid`), and strictly between
(400 of 1000: both `Partially Paid`). -/
theorem payment_status_three_way_classification_witness :
    validate_and_update_payment_and_security_deposit_status 1000 1000 1000 1000 =
        ("Paid", "Paid") ∧
      validate_and_update_payment_and_security_deposit_status 1000 0 1000 0 =
        ("UnPaid", "Unpaid") ∧
      validate_and_update_payment_and_security_deposit_status 1000 400 1000 400 =
        ("Partially Paid", "Partially Paid") :=
  ⟨(payment_status_three_way_classification 1000 1000).1 (by norm_num),
   ((payment_status_three_way_classification 1000 0).2.1 (by norm_num) rfl),
   ((payment_status_three_way_classification 1000 400).2.2 (by norm_num) (by norm_num))⟩

/-- C4: with no delivery-date filters and no reserved-stock selection, a
Delivery Note line exists exactly for those source rows with
`|delivered_qty| < |qty|` that are not supplier-drop-shipped, and each
target line carries `qty = qty − delivered_qty`,
`amount = (qty − delivered_qty) × rate` and
`base_amount = (qty − delivered_qty) × base_rate` (the source amount is
recomputed, never copied). -/
theorem make_delivery_note_inclusion_and_amounts (items : List SOItemRow)
    (t : DeliveryNoteItem) :
    t ∈ make_delivery_note items ↔
      ∃ s ∈ items, (|s.delivered_qty| < |s.qty| ∧ s.delivered_by_supplier ≠ 1) ∧
        t = { qty := s.qty - s.delivered_qty
              amount := (s.qty - s.delivered_qty) * s.rate
              base_amount := (s.qty - s.delivered_qty) * s.base_rate } := by
  simp only [make_delivery_note, List.mem_map, List.mem_filter,
    make_delivery_note.condition, decide_eq_true_eq]
  constructor
  · rintro ⟨s, ⟨hs, hcond⟩, rfl⟩
    exact ⟨s, hs, hcond, rfl⟩
  · rintro ⟨s, hs, hcond, rfl⟩
    exact ⟨s, ⟨hs, hcond⟩, rfl⟩

/-- C8: `create_pick_list` throws (producing no draft) whenever some source
row has `stock_reserved_qty > 0`; with no reserved stock it succeeds, and
every target row originates from a source row that is not a product-bundle
parent (and meets the delivery-remainder condition). -/
theorem create_pick_list_reserved_guard_and_bundle_exclusion
    (product_bundle : String → Bool) (items : List SOItemRow) :
    ((∃ i ∈ items, i.stock_reserved_qty > 0) →
        ∃ msg, create_pick_list product_bundle items = .error msg) ∧
      ((∀ i ∈ items, ¬(i.stock_reserved_qty > 0)) →
        ∃ srcs : List SOItemRow,
          (∀ i ∈ srcs, i ∈ items ∧ product_bundle i.item_code = false ∧
            |i.delivered_qty| < |i.qty| ∧ i.delivered_by_supplier ≠ 1) ∧
          create_pick_list product_bundle items =
            .ok (srcs.map create_pick_list.update_item_quantity)) := by
  constructor
  · rintro ⟨i, hi, hres⟩
    have hany : items.any (fun item => item.stock_reserved_qty > 0) = true := by
      exact List.any_eq_true.mpr ⟨i, hi, by simpa using hres⟩
    refine ⟨"Cannot create a pick list for Sales Order because it has reserved stock. Please unreserve the stock in order to create a pick list.", ?_⟩
    simp [create_pick_list, hany]
  · intro hnone
    refine ⟨items.filter (create_pick_list.should_pick_order_item product_bundle), ?_, ?_⟩
    · intro i hi
      have hmem := (List.mem_filter.mp hi).1
      have hcond := (List.mem_filter.mp hi).2
      simp only [create_pick_list.should_pick_order_item, Bool.and_eq_true,
        decide_eq_true_eq, Bool.not_eq_true'] at hcond
      exact ⟨hmem, hcond.2, hcond.1.1, hcond.1.2⟩
    · have hany : items.any (fun item => item.stock_reserved_qty > 0) = false := by
        simp only [List.any_eq_false]
        intro i hi
        simpa using hnone i hi
      simp [create_pick_list, hany]

/-- C8 witness: a one-row order with reserved stock is rejected, and a
two-row order (one plain row, one bundle-parent row) with no reserved
stock yields a pick list whose every source row is a non-bundle. -/
theorem create_pick_list_witness :
    (∃ msg, create_pick_list (fun c => decide (c = "BUNDLE"))
        [⟨"R1", "DEV-1", 5, 0, 10, 10, 0, 3, 0, 1⟩] = .error msg) ∧
      (∃ srcs : List SOItemRow,
        (∀ i ∈ srcs, i ∈ ([⟨"R1", "DEV-1", 5, 0, 10, 10, 0, 0, 0, 1⟩,
            ⟨"R2", "BUNDLE", 5, 0, 10, 10, 0, 0, 0, 1⟩] : List SOItemRow) ∧
          (fun c => decide (c = "BUNDLE")) i.item_code = false ∧
          |i.delivered_qty| < |i.qty| ∧ i.delivered_by_supplier ≠ 1) ∧
        create_pick_list (fun c => decide (c = "BUNDLE"))
            [⟨"R1", "DEV-1", 5, 0, 10, 10, 0, 0, 0, 1⟩,
             ⟨"R2", "BUNDLE", 5, 0, 10, 10, 0, 0, 0, 1⟩] =
          .ok (srcs.map create_pick_list.update_item_quantity)) :=
  ⟨(create_pick_list_reserved_guard_and_bundle_exclusion (fun c => decide (c = "BUNDLE"))
        [⟨"R1", "DEV-1", 5, 0, 10, 10, 0, 3, 0, 1⟩]).1
      ⟨⟨"R1", "DEV-1", 5, 0, 10, 10, 0, 3, 0, 1⟩, by decide⟩,
   (create_pick_list_reserved_guard_and_bundle_exclusion (fun c => decide (c = "BUNDLE"))
        [⟨"R1", "DEV-1", 5, 0, 10, 10, 0, 0, 0, 1⟩,
         ⟨"R2", "BUNDLE", 5, 0, 10, 10, 0, 0, 0, 1⟩]).2 (by decide)⟩

/-- C9 counterexample: neither remaining-quantity computation clamps its
final value to zero.  A row with `qty = 1` and `2` already requested gives
`get_remaining_qty = -1 < 0`; a row with `qty = 1`, `picked_qty = 2`,
`conversion_factor = 1` gives `qty_to_be_picked = -1 < 0`. -/
theorem remaining_qty_negative_counterexample :
    get_remaining_qty ⟨"R1", "DEV-1", 1, 0, 10, 10, 0, 0, 0, 1⟩ 2 0 < 0 ∧
      (create_pick_list.update_item_quantity
          ⟨"R1", "DEV-1", 1, 0, 10, 10, 0, 0, 2, 1⟩).qty < 0 := by
  constructor
  · show (1 : ℚ) - 2 - max ((0 : ℚ) - 0) 0 < 0
    norm_num
  · show (1 : ℚ) - max ((2 : ℚ) / (if (1 : ℚ) = 0 then 1 else 1)) 0 < 0
    norm_num

/-- C9 (amended): only the delivered-minus-received term is clamped, so the
computed remaining quantities can go negative in general; they are
nonnegative under the expected bounds: `get_remaining_qty ≥ 0` whenever
`requested_qty ≤ qty` and `delivered_qty − received_qty ≤ qty − requested_qty`,
and `qty_to_be_picked ≥ 0` whenever `picked_qty / conversion_factor ≤ qty`
and `delivered_qty ≤ qty`. -/
theorem remaining_qty_nonneg_under_bounds (so_item source : SOItemRow)
    (requested_qty received_qty : ℚ) :
    (requested_qty ≤ so_item.qty →
      so_item.delivered_qty - received_qty ≤ so_item.qty - requested_qty →
      0 ≤ get_remaining_qty so_item requested_qty received_qty) ∧
    (source.picked_qty /
        (if source.conversion_factor = 0 then 1 else source.conversion_factor) ≤
          source.qty →
      source.delivered_qty ≤ source.qty →
      0 ≤ (create_pick_list.update_item_quantity source).qty) := by
  constructor
  · intro h1 h2
    have hmax : max (so_item.delivered_qty - received_qty) 0 ≤
        so_item.qty - requested_qty := max_le h2 (by linarith)
    unfold get_remaining_qty
    linarith
  · intro h1 h2
    have hmax : max (source.picked_qty /
        (if source.conversion_factor = 0 then 1 else source.conversion_factor))
        source.delivered_qty ≤ source.qty := max_le h1 h2
    show 0 ≤ source.qty - max _ source.delivered_qty
    linarith

/-- C9 witness: at a concrete row with `qty = 10`, `3` requested, `2`
delivered and `2` received, the remaining quantity is nonnegative, and at
a concrete row with `qty = 10`, `picked_qty = 4`, `conversion_factor = 2`,
`delivered_qty = 5`, the quantity to be picked is nonnegative. -/
theorem remaining_qty_nonneg_under_bounds_witness :
    0 ≤ get_remaining_qty ⟨"R1", "DEV-1", 10, 2, 10, 10, 0, 0, 0, 1⟩ 3 2 ∧
      0 ≤ (create_pick_list.update_item_quantity
        ⟨"R2", "DEV-2", 10, 5, 10, 10, 0, 0, 4, 2⟩).qty :=
  ⟨(remaining_qty_nonneg_under_bounds ⟨"R1", "DEV-1", 10, 2, 10, 10, 0, 0, 0, 1⟩
        ⟨"R2", "DEV-2", 10, 5, 10, 10, 0, 0, 4, 2⟩ 3 2).1
      (by norm_num) (by norm_num),
   (remaining_qty_nonneg_under_bounds ⟨"R1", "DEV-1", 10, 2, 10, 10, 0, 0, 0, 1⟩
        ⟨"R2", "DEV-2", 10, 5, 10, 10, 0, 0, 4, 2⟩ 3 2).2
      (by norm_num) (by norm_num)⟩

end SalesOrder

namespace SalesOrder

/-- C2 counterexample: `item_replacement` applies no single-line mirror.
An order with a single line in sub-status "Ready for Pickup" keeps that
sub-status after the replacement (the item is swapped), yet the header is
re-voted to "Active" instead of mirroring "Ready for Pickup". -/
theorem item_replacement_single_line_counterexample :
    (item_replacement (fun _ => "Available")
        [⟨"L1", "DEV-1", "Ready for Pickup", ""⟩]
        "DEV-1" "DEV-2" "Available" "Picked Up").2.1 =
      [⟨"L1", "DEV-2", "Ready for Pickup", "DEV-1"⟩] ∧
    (item_replacement (fun _ => "Available")
        [⟨"L1", "DEV-1", "Ready for Pickup", ""⟩]
        "DEV-1" "DEV-2" "Available" "Picked Up").2.2 = "Active" ∧
    ("Active" : String) ≠ "Ready for Pickup" := by
  refine ⟨rfl, rfl, by decide⟩

/-- C2 (amended): `update_status_to_pickup` mirrors on a single line (line
and header both "Picked Up") and on multiple lines follows the claimed
cascade over the resulting sub-statuses; `item_replacement` has no
single-line special case: whenever at least one resulting line is outside
"Ready for Delivery"/"DISPATCHED" its header follows the same claimed
cascade, and when every line is excluded the header is left unchanged. -/
theorem rental_header_vote_amended (item_status : String → String)
    (item_code : String) (lines : List RentalLine)
    (child_name current_status : String)
    (old_item new_item old_item_status : String) :
    (∀ l, lines = [l] →
      (update_status_to_pickup item_status item_code lines child_name
          current_status).2.1 = [{ l with child_status := "Picked Up" }] ∧
      (update_status_to_pickup item_status item_code lines child_name
          current_status).2.2.1 = "Picked Up") ∧
    (∀ l1 l2 rest, lines = l1 :: l2 :: rest →
      (update_status_to_pickup item_status item_code lines child_name
          current_status).2.2.1 =
        claimed_status_vote
          ((update_status_to_pickup item_status item_code lines child_name
              current_status).2.1.map RentalLine.child_status)) ∧
    (((item_replacement item_status lines old_item new_item old_item_status
          current_status).2.1.map RentalLine.child_status).any
        (fun c => decide (c ≠ "Ready for Delivery" ∧ c ≠ "DISPATCHED")) = true →
      (item_replacement item_status lines old_item new_item old_item_status
          current_status).2.2 =
        claimed_status_vote
          ((item_replacement item_status lines old_item new_item old_item_status
              current_status).2.1.map RentalLine.child_status)) ∧
    (((item_replacement item_status lines old_item new_item old_item_status
          current_status).2.1.map RentalLine.child_status).any
        (fun c => decide (c ≠ "Ready for Delivery" ∧ c ≠ "DISPATCHED")) = false →
      (item_replacement item_status lines old_item new_item old_item_status
          current_status).2.2 = current_status) := by
  refine ⟨?_, ?_, ?_, ?_⟩
  · rintro l rfl
    exact ⟨rfl, rfl⟩
  · rintro l1 l2 rest rfl
    exact pickup_vote_eq_claimed _
  · intro hg
    exact replacement_vote_eq_claimed _ _ hg
  · intro hg
    exact replacement_vote_all_excluded _ _ hg

/-- C2 witness: the amended theorem applied at concrete orders: a
single-line pickup mirrors to "Picked Up"; a two-line pickup with one line
"Submitted to Office" votes "Partially Closed"; a replacement on an
all-"Active" two-line order votes "Active"; a replacement on an order
whose lines are all "DISPATCHED" leaves the header at "DISPATCHED". -/
theorem rental_header_vote_amended_witness :
    ((update_status_to_pickup (fun _ => "Available") "DEV-1"
        [⟨"L1", "DEV-1", "Active", ""⟩] "L1" "Active").2.1 =
      [⟨"L1", "DEV-1", "Picked Up", ""⟩] ∧
     (update_status_to_pickup (fun _ => "Available") "DEV-1"
        [⟨"L1", "DEV-1", "Active", ""⟩] "L1" "Active").2.2.1 = "Picked Up") ∧
    (update_status_to_pickup (fun _ => "Available") "DEV-1"
        [⟨"L1", "DEV-1", "Active", ""⟩,
         ⟨"L2", "DEV-2", "Submitted to Office", ""⟩] "L1" "Active").2.2.1 =
      "Partially Closed" ∧
    (item_replacement (fun _ => "Available")
        [⟨"L1", "DEV-1", "Active", ""⟩, ⟨"L2", "DEV-2", "Active", ""⟩]
        "DEV-1" "DEV-3" "Available" "Active").2.2 = "Active" ∧
    (item_replacement (fun _ => "Available")
        [⟨"L1", "DEV-1", "DISPATCHED", ""⟩, ⟨"L2", "DEV-2", "DISPATCHED", ""⟩]
        "DEV-1" "DEV-3" "Available" "DISPATCHED").2.2 = "DISPATCHED" := by
  refine ⟨(rental_header_vote_amended (fun _ => "Available") "DEV-1"
      [⟨"L1", "DEV-1", "Active", ""⟩] "L1" "Active" "X" "Y" "Z").1
      ⟨"L1", "DEV-1", "Active", ""⟩ rfl, ?_, ?_, ?_⟩
  · have h := (rental_header_vote_amended (fun _ => "Available") "DEV-1"
      [⟨"L1", "DEV-1", "Active", ""⟩,
       ⟨"L2", "DEV-2", "Submitted to Office", ""⟩] "L1" "Active" "X" "Y" "Z").2.1
      ⟨"L1", "DEV-1", "Active", ""⟩ ⟨"L2", "DEV-2", "Submitted to Office", ""⟩ [] rfl
    rw [h]
    rfl
  · have h := (rental_header_vote_amended (fun _ => "Available") "L1"
      [⟨"L1", "DEV-1", "Active", ""⟩, ⟨"L2", "DEV-2", "Active", ""⟩] "L1" "Active"
      "DEV-1" "DEV-3" "Available").2.2.1 (by decide)
    rw [h]
    rfl
  · exact (rental_header_vote_amended (fun _ => "Available") "L1"
      [⟨"L1", "DEV-1", "DISPATCHED", ""⟩, ⟨"L2", "DEV-2", "DISPATCHED", ""⟩]
      "L1" "DISPATCHED" "DEV-1" "DEV-3" "Available").2.2.2 (by decide)

end SalesOrder

namespace SalesOrder

/-- C5: whenever cancellation completes (no error raised — the claim's
"Sales Order that is cancelled"), every line's linked Item that was
"Rented Out" has been set to "Available", and the header status is forced
to "Cancelled" with no condition on line sub-statuses or on the prior
header value; the item flips hold even on the error path. -/
theorem on_cancel_releases_items_and_forces_cancelled
    (lines : List String) (item_status : String → String) (status : String) :
    (∀ code ∈ lines, item_status code = "Rented Out" →
      (on_cancel lines item_status status).1.1 code = "Available") ∧
    ((on_cancel lines item_status status).2 = none →
      (on_cancel lines item_status status).1.2 = "Cancelled") := by
  constructor
  · intro code hmem h
    have hfst : (on_cancel lines item_status status).1.1 =
        item_status_change_cancel lines item_status := by
      unfold on_cancel
      split <;> rfl
    rw [hfst]
    exact item_status_change_cancel_flips lines item_status code hmem h
  · intro hnone
    by_cases hs : status = "Closed"
    · simp [on_cancel, hs] at hnone
    · simp [on_cancel, hs]

/-- C5 witness: cancelling an "Active" order holding one "Rented Out"
device releases the device and ends with header "Cancelled". -/
theorem on_cancel_releases_items_and_forces_cancelled_witness :
    (on_cancel ["DEV-1"] (fun c => if c = "DEV-1" then "Rented Out" else "Available")
        "Active").1.1 "DEV-1" = "Available" ∧
    (on_cancel ["DEV-1"] (fun c => if c = "DEV-1" then "Rented Out" else "Available")
        "Active").1.2 = "Cancelled" :=
  ⟨(on_cancel_releases_items_and_forces_cancelled ["DEV-1"]
      (fun c => if c = "DEV-1" then "Rented Out" else "Available") "Active").1
      "DEV-1" (by decide) (by decide),
   (on_cancel_releases_items_and_forces_cancelled ["DEV-1"]
      (fun c => if c = "DEV-1" then "Rented Out" else "Available") "Active").2 rfl⟩

/-- C6 counterexample: cancelling a "Closed" order does fail with the
closed-order error, but NOT without partial state change: the line's
linked Item, "Rented Out" before the call, has already been flipped to
"Available" (and committed) when the error is raised. -/
theorem on_cancel_closed_partial_mutation_counterexample :
    (on_cancel ["DEV-1"] (fun c => if c = "DEV-1" then "Rented Out" else "Available")
        "Closed").2 = some "Closed order cannot be cancelled. Unclose to cancel." ∧
    (fun c => if c = "DEV-1" then "Rented Out" else "Available") "DEV-1" =
      "Rented Out" ∧
    (on_cancel ["DEV-1"] (fun c => if c = "DEV-1" then "Rented Out" else "Available")
        "Closed").1.1 "DEV-1" = "Available" := by
  refine ⟨rfl, rfl, rfl⟩

/-- C6 (amended): cancelling a "Closed" order fails with the
closed-order-cannot-be-cancelled error and the header status is left
unchanged (never set to "Cancelled"), but the abort is not free of partial
state change: the "Rented Out" → "Available" item flips have already been
applied (items outside the order's lines are untouched). -/
theorem on_cancel_closed_amended (lines : List String)
    (item_status : String → String) :
    (on_cancel lines item_status "Closed").2 =
      some "Closed order cannot be cancelled. Unclose to cancel." ∧
    (on_cancel lines item_status "Closed").1.2 = "Closed" ∧
    (∀ code, code ∉ lines →
      (on_cancel lines item_status "Closed").1.1 code = item_status code) ∧
    (∀ code ∈ lines, item_status code = "Rented Out" →
      (on_cancel lines item_status "Closed").1.1 code = "Available") := by
  refine ⟨rfl, rfl, ?_, ?_⟩
  · intro code hmem
    exact item_status_change_cancel_not_mem lines item_status code hmem
  · intro code hmem h
    exact item_status_change_cancel_flips lines item_status code hmem h

/-- C6 amended witness: at a concrete closed order with one rented-out
device, the error is raised, the header stays "Closed", an unrelated item
keeps its status, and the device has been flipped to "Available". -/
theorem on_cancel_closed_amended_witness :
    (on_cancel ["DEV-1"] (fun c => if c = "DEV-1" then "Rented Out" else "Available")
        "Closed").2 = some "Closed order cannot be cancelled. Unclose to cancel." ∧
    (on_cancel ["DEV-1"] (fun c => if c = "DEV-1" then "Rented Out" else "Available")
        "Closed").1.2 = "Closed" ∧
    (on_cancel ["DEV-1"] (fun c => if c = "DEV-1" then "Rented Out" else "Available")
        "Closed").1.1 "DEV-9" = "Available" ∧
    (on_cancel ["DEV-1"] (fun c => if c = "DEV-1" then "Rented Out" else "Available")
        "Closed").1.1 "DEV-1" = "Available" :=
  ⟨(on_cancel_closed_amended ["DEV-1"]
      (fun c => if c = "DEV-1" then "Rented Out" else "Available")).1,
   (on_cancel_closed_amended ["DEV-1"]
      (fun c => if c = "DEV-1" then "Rented Out" else "Available")).2.1,
   (on_cancel_closed_amended ["DEV-1"]
      (fun c => if c = "DEV-1" then "Rented Out" else "Available")).2.2.1
      "DEV-9" (by decide),
   (on_cancel_closed_amended ["DEV-1"]
      (fun c => if c = "DEV-1" then "Rented Out" else "Available")).2.2.2
      "DEV-1" (by decide) (by decide)⟩

end SalesOrder

namespace SalesOrder

/-- C7: `process_payment` raises an error and creates neither a Payment
Entry nor a Journal Entry whenever an amount is negative, and likewise
whenever the security-deposit amount exceeds the outstanding security
deposit or the rental amount exceeds the balance amount. -/
theorem process_payment_validation_rejects
    (balance_amount outstanding_security_deposit_amount
      rental_payment_amount security_deposit_payment_amount : ℚ) :
    (rental_payment_amount < 0 ∨ security_deposit_payment_amount < 0 →
      process_payment balance_amount outstanding_security_deposit_amount
          rental_payment_amount security_deposit_payment_amount =
        ([], some "Payment amounts cannot be negative.")) ∧
    (security_deposit_payment_amount > outstanding_security_deposit_amount ∨
        rental_payment_amount > balance_amount →
      (process_payment balance_amount outstanding_security_deposit_amount
          rental_payment_amount security_deposit_payment_amount).1 = [] ∧
      (process_payment balance_amount outstanding_security_deposit_amount
          rental_payment_amount security_deposit_payment_amount).2.isSome = true) := by
  constructor
  · intro h1
    unfold process_payment
    rw [if_pos h1]
  · intro h
    by_cases h1 : rental_payment_amount < 0 ∨ security_deposit_payment_amount < 0
    · unfold process_payment
      rw [if_pos h1]
      exact ⟨rfl, rfl⟩
    by_cases h2 : balance_amount < 0 ∨ outstanding_security_deposit_amount < 0
    · unfold process_payment
      rw [if_neg h1, if_pos h2]
      exact ⟨rfl, rfl⟩
    push_neg at h1 h2
    by_cases h3 : security_deposit_payment_amount > 0 ∧ rental_payment_amount > 0
    · cases h with
      | inl hsd =>
        unfold process_payment
        rw [if_neg (by push_neg; exact h1), if_neg (by push_neg; exact h2),
          if_pos h3, if_pos hsd]
        exact ⟨rfl, rfl⟩
      | inr hr =>
        by_cases h4 : security_deposit_payment_amount >
            outstanding_security_deposit_amount
        · unfold process_payment
          rw [if_neg (by push_neg; exact h1), if_neg (by push_neg; exact h2),
            if_pos h3, if_pos h4]
          exact ⟨rfl, rfl⟩
        · unfold process_payment
          rw [if_neg (by push_neg; exact h1), if_neg (by push_neg; exact h2),
            if_pos h3, if_neg h4, if_pos hr]
          exact ⟨rfl, rfl⟩
    · by_cases h5 : security_deposit_payment_amount > 0
      · cases h with
        | inl hsd =>
          unfold process_payment
          rw [if_neg (by push_neg; exact h1), if_neg (by push_neg; exact h2),
            if_neg h3, if_pos h5, if_pos hsd]
          exact ⟨rfl, rfl⟩
        | inr hr =>
          exfalso
          have hr0 : rental_payment_amount > 0 := lt_of_le_of_lt h2.1 hr
          exact h3 ⟨h5, hr0⟩
      · cases h with
        | inl hsd =>
          exfalso
          exact h5 (lt_of_le_of_lt h2.2 hsd)
        | inr hr =>
          have hr0 : rental_payment_amount > 0 := lt_of_le_of_lt h2.1 hr
          unfold process_payment
          rw [if_neg (by push_neg; exact h1), if_neg (by push_neg; exact h2),
            if_neg h3, if_neg h5, if_pos hr0, if_pos hr]
          exact ⟨rfl, rfl⟩

/-- C7 witness: a negative rental amount is rejected with the
negative-amount error and no entries, and a security-deposit payment of 60
against an outstanding deposit of 50 is rejected with an error and no
entries. -/
theorem process_payment_validation_rejects_witness :
    process_payment 100 100 (-5) 0 =
      ([], some "Payment amounts cannot be negative.") ∧
    ((process_payment 100 50 0 60).1 = [] ∧
      (process_payment 100 50 0 60).2.isSome = true) :=
  ⟨(process_payment_validation_rejects 100 100 (-5) 0).1 (Or.inl (by norm_num)),
   (process_payment_validation_rejects 100 50 0 60).2 (Or.inl (by norm_num))⟩

theorem make_approved_loop_cons (item : ApprovalLine) (rest : List ApprovalLine)
    (db : ApprovalDB) :
    make_approved_loop (item :: rest) db =
      if db.item_status item.item_code = "Available" then
        make_approved_loop rest (make_approved_step db item)
      else db := rfl

theorem make_approved_run_cons (db : ApprovalDB) (item : ApprovalLine)
    (pre : List ApprovalLine) :
    make_approved_run db (item :: pre) =
      make_approved_run (make_approved_step db item) pre := rfl

theorem available_in_turn_cons (db : ApprovalDB) (item : ApprovalLine)
    (pre : List ApprovalLine) :
    available_in_turn db (item :: pre) =
      (decide (db.item_status item.item_code = "Available") &&
        available_in_turn (make_approved_step db item) pre) := rfl

theorem make_approved_loop_break (pre : List ApprovalLine) (db : ApprovalDB)
    (l : ApprovalLine) (rest : List ApprovalLine)
    (havail : available_in_turn db pre = true)
    (hna : (make_approved_run db pre).item_status l.item_code ≠ "Available") :
    make_approved_loop (pre ++ l :: rest) db = make_approved_run db pre := by
  induction pre generalizing db with
  | nil =>
    have hna' : db.item_status l.item_code ≠ "Available" := hna
    rw [List.nil_append, make_approved_loop_cons, if_neg hna']
    rfl
  | cons p pre' ih =>
    have h := havail
    rw [available_in_turn_cons] at h
    simp only [Bool.and_eq_true, decide_eq_true_eq] at h
    obtain ⟨h1, h2⟩ := h
    rw [List.cons_append, make_approved_loop_cons, if_pos h1,
      make_approved_run_cons]
    exact ih (make_approved_step db p) h2 hna

theorem make_approved_loop_all_available (lines : List ApprovalLine)
    (db : ApprovalDB) (h : available_in_turn db lines = true) :
    make_approved_loop lines db = make_approved_run db lines := by
  induction lines generalizing db with
  | nil => rfl
  | cons p pre' ih =>
    have h' := h
    rw [available_in_turn_cons] at h'
    simp only [Bool.and_eq_true, decide_eq_true_eq] at h'
    obtain ⟨h1, h2⟩ := h'
    rw [make_approved_loop_cons, if_pos h1, make_approved_run_cons]
    exact ih (make_approved_step db p) h2

theorem make_approved_run_keeps_reserved (pre : List ApprovalLine)
    (db : ApprovalDB) (code : String) (h : db.item_status code = "Reserved") :
    (make_approved_run db pre).item_status code = "Reserved" := by
  induction pre generalizing db with
  | nil => exact h
  | cons p pre' ih =>
    rw [make_approved_run_cons]
    apply ih
    show set_item_status db.item_status p.item_code "Reserved" code = "Reserved"
    by_cases hc : code = p.item_code <;> simp [set_item_status, hc, h]

theorem make_approved_run_keeps_approved (pre : List ApprovalLine)
    (db : ApprovalDB) (n : String) (h : db.child_status n = "Approved") :
    (make_approved_run db pre).child_status n = "Approved" := by
  induction pre generalizing db with
  | nil => exact h
  | cons p pre' ih =>
    rw [make_approved_run_cons]
    apply ih
    show (if n = p.name then "Approved" else db.child_status n) = "Approved"
    by_cases hc : n = p.name <;> simp [hc, h]

theorem make_approved_run_writes (pre : List ApprovalLine) (db : ApprovalDB) :
    ∀ p ∈ pre, (make_approved_run db pre).item_status p.item_code = "Reserved" ∧
      (make_approved_run db pre).child_status p.name = "Approved" := by
  induction pre generalizing db with
  | nil =>
    intro p hp
    cases hp
  | cons q pre' ih =>
    intro p hp
    rw [make_approved_run_cons]
    cases hp with
    | head =>
      constructor
      · apply make_approved_run_keeps_reserved
        simp [make_approved_step, set_item_status]
      · apply make_approved_run_keeps_approved
        simp [make_approved_step]
    | tail _ hp' =>
      exact ih (make_approved_step db q) p hp'

/-- C10: `make_approved` always returns "Approved Success", and its loop
stops at the first row whose Item is not "Available", wherever that row
sits: for any decomposition `pre ++ l :: rest` where every row of `pre`
finds its Item "Available" at its turn and `l` does not, the final state
is exactly the state after processing `pre` — every earlier row's Item
keeps its newly set "Reserved" status and every earlier row keeps
child_status "Approved" (no rollback), the rows of `rest` are never
processed, and with `pre = []` (first row unavailable) the state is
returned completely unchanged; when every row's Item is available in turn
the whole order is processed. -/
theorem make_approved_stops_without_rollback
    (so_lines : List ApprovalLine) (db : ApprovalDB) :
    ((make_approved so_lines db).2 = "Approved Success") ∧
    (∀ pre l rest, so_lines = pre ++ l :: rest →
      available_in_turn db pre = true →
      (make_approved_run db pre).item_status l.item_code ≠ "Available" →
      (make_approved so_lines db).1 = make_approved_run db pre ∧
      (∀ p ∈ pre,
        (make_approved so_lines db).1.item_status p.item_code = "Reserved" ∧
        (make_approved so_lines db).1.child_status p.name = "Approved")) ∧
    (available_in_turn db so_lines = true →
      (make_approved so_lines db).1 = make_approved_run db so_lines) := by
  refine ⟨rfl, ?_, ?_⟩
  · rintro pre l rest rfl havail hna
    have hbreak : (make_approved (pre ++ l :: rest) db).1 = make_approved_run db pre :=
      make_approved_loop_break pre db l rest havail hna
    refine ⟨hbreak, ?_⟩
    intro p hp
    rw [hbreak]
    exact make_approved_run_writes pre db p hp
  · intro h
    exact make_approved_loop_all_available so_lines db h

/-- C10 witness: a three-row order whose third device is "Booked" breaks at
the third row: the function returns "Approved Success", the final state is
the two-step state, both earlier devices stay "Reserved" and both earlier
rows stay "Approved"; a one-row order whose device is "Booked" is returned
completely unchanged. -/
theorem make_approved_stops_without_rollback_witness :
    (make_approved [⟨"R1", "DEV-1"⟩, ⟨"R2", "DEV-2"⟩, ⟨"R3", "DEV-3"⟩]
        ⟨fun c => if c = "DEV-3" then "Booked" else "Available",
         fun _ => "Pending", "Pending"⟩).2 = "Approved Success" ∧
    (make_approved [⟨"R1", "DEV-1"⟩, ⟨"R2", "DEV-2"⟩, ⟨"R3", "DEV-3"⟩]
        ⟨fun c => if c = "DEV-3" then "Booked" else "Available",
         fun _ => "Pending", "Pending"⟩).1 =
      make_approved_run
        ⟨fun c => if c = "DEV-3" then "Booked" else "Available",
         fun _ => "Pending", "Pending"⟩ [⟨"R1", "DEV-1"⟩, ⟨"R2", "DEV-2"⟩] ∧
    (make_approved [⟨"R1", "DEV-1"⟩, ⟨"R2", "DEV-2"⟩, ⟨"R3", "DEV-3"⟩]
        ⟨fun c => if c = "DEV-3" then "Booked" else "Available",
         fun _ => "Pending", "Pending"⟩).1.item_status "DEV-1" = "Reserved" ∧
    (make_approved [⟨"R1", "DEV-1"⟩, ⟨"R2", "DEV-2"⟩, ⟨"R3", "DEV-3"⟩]
        ⟨fun c => if c = "DEV-3" then "Booked" else "Available",
         fun _ => "Pending", "Pending"⟩).1.item_status "DEV-2" = "Reserved" ∧
    (make_approved [⟨"R1", "DEV-1"⟩, ⟨"R2", "DEV-2"⟩, ⟨"R3", "DEV-3"⟩]
        ⟨fun c => if c = "DEV-3" then "Booked" else "Available",
         fun _ => "Pending", "Pending"⟩).1.child_status "R1" = "Approved" ∧
    (make_approved [⟨"R1", "DEV-1"⟩, ⟨"R2", "DEV-2"⟩, ⟨"R3", "DEV-3"⟩]
        ⟨fun c => if c = "DEV-3" then "Booked" else "Available",
         fun _ => "Pending", "Pending"⟩).1.child_status "R2" = "Approved" ∧
    (make_approved [⟨"R1", "DEV-1"⟩]
        ⟨fun _ => "Booked", fun _ => "Pending", "Pending"⟩).1 =
      ⟨fun _ => "Booked", fun _ => "Pending", "Pending"⟩ := by
  have h := make_approved_stops_without_rollback
    [⟨"R1", "DEV-1"⟩, ⟨"R2", "DEV-2"⟩, ⟨"R3", "DEV-3"⟩]
    ⟨fun c => if c = "DEV-3" then "Booked" else "Available",
     fun _ => "Pending", "Pending"⟩
  have h2 := h.2.1 [⟨"R1", "DEV-1"⟩, ⟨"R2", "DEV-2"⟩] ⟨"R3", "DEV-3"⟩ []
    rfl (by decide) (by decide)
  refine ⟨h.1, h2.1,
    (h2.2 ⟨"R1", "DEV-1"⟩ (by decide)).1, (h2.2 ⟨"R2", "DEV-2"⟩ (by decide)).1,
    (h2.2 ⟨"R1", "DEV-1"⟩ (by decide)).2, (h2.2 ⟨"R2", "DEV-2"⟩ (by decide)).2, ?_⟩
  exact ((make_approved_stops_without_rollback [⟨"R1", "DEV-1"⟩]
      ⟨fun _ => "Booked", fun _ => "Pending", "Pending"⟩).2.1
      [] ⟨"R1", "DEV-1"⟩ [] rfl rfl (by decide)).1

end SalesOrder
